import Mathlib

/-!
Verification of the JNI boundary-layer utilities in
`realm/realm-library/src/main/cpp/util.hpp` (realm-java).

The development shallowly embeds the header into Lean:
machine integers become `Int`/`Nat` (with an explicit wrap where the source
may overflow a 64-bit value), host exceptions raised through
`ThrowException` (which records a pending host exception and lets the
native code continue) become an `Effects` record returned next to the
ordinary result, and `THROW_JAVA_EXCEPTION` (which unwinds) becomes
`Except.error`. Engine objects reached through opaque pointers are
modelled by explicit state records passed to the embedded functions.
-/

namespace RealmUtil

/-- The closed exception taxonomy of `enum ExceptionKind` in util.hpp. -/
inductive ExceptionKind where
  | ClassNotFound
  | IllegalArgument
  | IndexOutOfBounds
  | UnsupportedOperation
  | OutOfMemory
  | FatalError
  | RuntimeError
  | BadVersion
  | IllegalState
  | RealmFileError
  deriving DecidableEq, Repr

/-- Observable side effects of a validator call: host exceptions recorded
via `ThrowException` (kind and message) and log lines emitted through
`Log::e` (format string and integer arguments). -/
structure Effects where
  exns : List (ExceptionKind × String)
  logs : List (String × List Int)
  deriving DecidableEq, Repr

/-- No effect: nothing thrown, nothing logged. -/
def noEff : Effects := ⟨[], []⟩

/-! ### Column and table model

`TypeValid` and `ColIsNullable` interrogate a table through
`get_column_type`, `get_column_name`, `is_list` and `is_nullable`,
keyed by a `ColKey` built from the incoming `jlong`. The table is
modelled as the map from column-key values to the attributes those
four accessors return. -/

/-- Attributes of one column, as observable through the engine accessors
used in util.hpp. -/
structure ColInfo where
  colType : Int
  name : String
  isList : Bool
  isNullable : Bool

/-- A table, as observable through the four column accessors used in
util.hpp: a map from column-key value to the attributes of that column. -/
structure Table where
  cols : Int → ColInfo

/-- Embeds `pTable->get_column_type(col)` (result cast to int, as in the
source). -/
def Table.get_column_type (t : Table) (col : Int) : Int := (t.cols col).colType

/-- Embeds `std::string(pTable->get_column_name(col))`. -/
def Table.get_column_name (t : Table) (col : Int) : String := (t.cols col).name

/-- Embeds `pTable->is_list(col)`. -/
def Table.is_list (t : Table) (col : Int) : Bool := (t.cols col).isList

/-- Embeds `pTable->is_nullable(col)`. -/
def Table.is_nullable (t : Table) (col : Int) : Bool := (t.cols col).isNullable

/-- Numeric value of the engine constant `realm::type_Link`
(engine header realm/data_type.hpp, outside this repository). -/
def type_Link : Int := 12

/-- Numeric value of the engine constant `realm::type_LinkList`
(engine header realm/data_type.hpp, outside this repository). -/
def type_LinkList : Int := 13

/-! ### Handle validators -/

/-- Embeds `TableIsValid(env, table)` from util.hpp. The `TableRef`
argument is `none` when the reference is empty/detached (`!table` in the
source). NOTE: the source logs and records an `IllegalState` exception in
the empty case but then falls through to the single `return true;`. -/
def TableIsValid (table : Option Table) : Bool × Effects :=
  if table.isNone then
    (true,
      { exns := [(ExceptionKind.IllegalState, "Table is no longer valid to operate on.")],
        logs := [("Table is no longer attached!", [])] })
  else
    (true, noEff)

/-- Engine objects reachable through a `realm::Obj*`: for each pointer
value, whether `is_valid()` of the object at that address returns true.
The validators only read this state, mirroring the const engine calls in
the source. -/
structure EngineState where
  isValid : Int → Bool

/-- Embeds `RowIsValid(env, rowPtr)` from util.hpp. The pointer is its
integer value (0 = NULL); `rowPtr->is_valid()` is read from the engine
state, which is returned unchanged. -/
def RowIsValid (st : EngineState) (rowPtr : Int) : Bool × Effects × EngineState :=
  let valid := (rowPtr != 0) && st.isValid rowPtr
  if valid then
    (true, noEff, st)
  else
    (false,
      { exns := [(ExceptionKind.IllegalState,
          "Object is no longer valid to operate on. Was it deleted by another thread?")],
        logs := [("Row %1 is no longer attached!", [rowPtr])] },
      st)

/-- Embeds `TypeValid(env, pTable, columnIndex, expectColType)` from
util.hpp. -/
def TypeValid (t : Table) (columnIndex : Int) (expectColType : Int) : Bool × Effects :=
  let colType := t.get_column_type columnIndex
  if colType ≠ expectColType then
    (false,
      { exns := [(ExceptionKind.IllegalArgument,
          "ColumnType of \x27" ++ t.get_column_name columnIndex ++ "\x27 is invalid.")],
        logs := [("Expected columnType %1, but got %2.", [expectColType, colType])] })
  else
    (true, noEff)

/-- Embeds `ColIsNullable(env, pTable, columnKey)` from util.hpp,
following the same cascade of early returns. -/
def ColIsNullable (t : Table) (columnKey : Int) : Bool × Effects :=
  let colType := t.get_column_type columnKey
  if colType = type_Link then
    (true, noEff)
  else if colType = type_LinkList then
    (false,
      { exns := [(ExceptionKind.IllegalArgument,
          "RealmList(" ++ t.get_column_name columnKey ++ ") is not nullable.")],
        logs := [] })
  else if t.is_list columnKey then
    (false,
      { exns := [(ExceptionKind.IllegalArgument,
          "RealmList(" ++ t.get_column_name columnKey ++ ") is not nullable.")],
        logs := [] })
  else if t.is_nullable columnKey then
    (true, noEff)
  else
    (false,
      { exns := [(ExceptionKind.IllegalArgument,
          "This field(" ++ t.get_column_name columnKey ++ ") is not nullable.")],
        logs := [("Expected nullable column type", [])] })

/-! ### The parameter-check macros

`TABLE_VALID` and `ROW_VALID` expand to the validator calls
unconditionally; `TYPE_VALID` and `COL_NULLABLE` expand to the validator
call when `CHECK_PARAMETERS` is set and to the constant `(true)` when it
is not. The preprocessor flag becomes an explicit boolean argument. -/

/-- util.hpp line 39: `#define CHECK_PARAMETERS 1`. -/
def CHECK_PARAMETERS : Bool := true

/-- Embeds the `TYPE_VALID` macro as a function of the
`CHECK_PARAMETERS` flag. -/
def TYPE_VALID (check_parameters : Bool) (t : Table) (col : Int) (ty : Int) : Bool × Effects :=
  if check_parameters then TypeValid t col ty else (true, noEff)

/-- Embeds the `COL_NULLABLE` macro as a function of the
`CHECK_PARAMETERS` flag. -/
def COL_NULLABLE (check_parameters : Bool) (t : Table) (columnKey : Int) : Bool × Effects :=
  if check_parameters then ColIsNullable t columnKey else (true, noEff)

/-- Embeds the `TABLE_VALID` macro: defined outside the
`#if CHECK_PARAMETERS` block, it ignores the flag. -/
def TABLE_VALID (check_parameters : Bool) (t : Option Table) : Bool × Effects :=
  TableIsValid t

/-- Embeds the `ROW_VALID` macro: defined outside the
`#if CHECK_PARAMETERS` block, it ignores the flag. -/
def ROW_VALID (check_parameters : Bool) (st : EngineState) (p : Int) :
    Bool × Effects × EngineState :=
  RowIsValid st p

/-! ### to_jlong_or_not_found -/

/-- The engine sentinel `realm::not_found` (= `realm::npos` =
`size_t(-1)`, engine headers, outside this repository), as a `size_t`
value. -/
def not_found : Nat := 2 ^ 64 - 1

/-- The value of the C++ cast `jlong(x)` for a 64-bit unsigned `x`:
reinterpretation of the bit pattern as a signed 64-bit integer. -/
def jlong_of_size_t (n : Nat) : Int :=
  if n < 2 ^ 63 then (n : Int) else (n : Int) - 2 ^ 64

/-- Embeds the `size_t` overload of `to_jlong_or_not_found` from
util.hpp. -/
def to_jlong_or_not_found (res : Nat) : Int :=
  if res = not_found then (-1 : Int) else jlong_of_size_t res

/-- A `realm::ColKey`: a 64-bit signed value (engine header
realm/keys.hpp, outside this repository). -/
structure ColKey where
  value : Int

/-- The null `ColKey` value (engine header realm/keys.hpp, outside this
repository): all value bits set except the sign bit. `operator bool` of
a `ColKey` compares against it. -/
def ColKey.null_value : Int := 2 ^ 63 - 1

/-- `explicit operator bool` of `realm::ColKey` (engine header, outside
this repository): true when the key is not the null key. -/
def ColKey.toBool (k : ColKey) : Bool := k.value != ColKey.null_value

/-- Embeds the `realm::ColKey` overload of `to_jlong_or_not_found` from
util.hpp. -/
def to_jlong_or_not_found_col (key : ColKey) : Int :=
  if key.toBool then key.value else (-1 : Int)

/-- A `realm::ObjKey`: a 64-bit signed value (engine header
realm/keys.hpp, outside this repository). -/
structure ObjKey where
  value : Int

/-- The null `ObjKey` value (engine header realm/keys.hpp, outside this
repository): a default-constructed `ObjKey` holds -1 and
`operator bool` compares against it. -/
def ObjKey.null_value : Int := -1

/-- `explicit operator bool` of `realm::ObjKey` (engine header, outside
this repository): true when the key is not the null key. -/
def ObjKey.toBool (k : ObjKey) : Bool := k.value != ObjKey.null_value

/-- Embeds the `realm::ObjKey` overload of `to_jlong_or_not_found` from
util.hpp. -/
def to_jlong_or_not_found_obj (key : ObjKey) : Int :=
  if key.toBool then key.value else (-1 : Int)

/-! ### JStringAccessor

The accessor owns a transcoded buffer `m_data` of `m_size` bytes plus a
null flag; its constructor lives in util.cpp (outside the analysed
header), so the embedding works over arbitrary accessor states. The
conversion `operator realm::StringData` throws through
`THROW_JAVA_EXCEPTION`, which unwinds, hence `Except`; a
`realm::StringData` is null (default-constructed) or a view of some
bytes, hence `Option (List Char)`. -/

/-- The engine constant `realm::Table::max_string_size`
(engine header realm/table.hpp, outside this repository):
`0xFFFFF8 - 8` bytes. -/
def max_string_size : Nat := 16777200

/-- State of a `JStringAccessor` from util.hpp: the null flag, the
transcoded buffer content, and the byte count (`m_env` carries no
observable state and is dropped). -/
structure JStringAccessor where
  m_is_null : Bool
  m_data : List Char
  m_size : Nat

/-- Embeds `JStringAccessor::is_null_or_empty` from util.hpp. -/
def JStringAccessor.is_null_or_empty (a : JStringAccessor) : Bool :=
  a.m_is_null || a.m_size == 0

/-- Embeds `JStringAccessor::operator realm::StringData` from util.hpp:
null accessors yield the null `StringData`, oversize buffers raise
`IllegalArgument` through `THROW_JAVA_EXCEPTION` (which unwinds),
otherwise a view of the first `m_size` buffer bytes is produced. -/
def JStringAccessor.toStringData (a : JStringAccessor) :
    Except (ExceptionKind × String) (Option (List Char)) :=
  if a.m_is_null then
    Except.ok none
  else if a.m_size > max_string_size then
    Except.error (ExceptionKind.IllegalArgument,
      "The length of \x27String\x27 value in UTF8 encoding is " ++ toString a.m_size ++
        " which exceeds the max string length " ++ toString max_string_size ++ ".")
  else
    Except.ok (some (a.m_data.take a.m_size))

/-- Embeds `JStringAccessor::operator std::string` from util.hpp: a
noexcept total conversion, empty for null accessors, otherwise the first
`m_size` buffer bytes. -/
def JStringAccessor.toOwnedString (a : JStringAccessor) : List Char :=
  if a.m_is_null then [] else a.m_data.take a.m_size

/-- Decides whether an `Except` result is an `IllegalArgument` failure. -/
def isIllegalArgumentErr {α : Type} : Except (ExceptionKind × String) α → Bool
  | Except.error (ExceptionKind.IllegalArgument, _) => true
  | _ => false

/-! ### Timestamp and boolean codecs -/

/-- Reduction of an unbounded integer to the 64-bit two-complement value
with the same low 64 bits: the effect of the `int64_t` arithmetic in
util.hpp where the source comments note possible overflow. -/
def int64wrap (x : Int) : Int := (x + 2 ^ 63) % 2 ^ 64 - 2 ^ 63

/-- Largest `jlong` value. -/
def jlongMax : Int := 2 ^ 63 - 1

/-- Smallest `jlong` value. -/
def jlongMin : Int := -(2 ^ 63)

/-- A `realm::Timestamp` as stored: seconds and nanoseconds components
(engine header realm/timestamp.hpp, outside this repository). -/
structure Timestamp where
  m_seconds : Int
  m_nanoseconds : Int
  deriving DecidableEq, Repr

/-- Embeds `to_milliseconds(ts)` from util.hpp: `seconds * 1000 +
nanoseconds / 1000000` in `int64_t` arithmetic (C++ division truncates
toward zero; the source comments that the sum may overflow, hence the
wrap). -/
def to_milliseconds (ts : Timestamp) : Int :=
  int64wrap (ts.m_seconds * 1000 + ts.m_nanoseconds.tdiv 1000000)

/-- Embeds `from_milliseconds(milliseconds)` from util.hpp:
`seconds = milliseconds / 1000`, `nanoseconds = (milliseconds % 1000) *
1000000`, with C++ truncating division and remainder. -/
def from_milliseconds (milliseconds : Int) : Timestamp :=
  { m_seconds := milliseconds.tdiv 1000
    m_nanoseconds := milliseconds.tmod 1000 * 1000000 }

/-- The constant `JNI_TRUE` from jni.h (outside this repository), as a
`jboolean` (an 8-bit unsigned byte). -/
def JNI_TRUE : Fin 256 := 1

/-- The constant `JNI_FALSE` from jni.h (outside this repository), as a
`jboolean` (an 8-bit unsigned byte). -/
def JNI_FALSE : Fin 256 := 0

/-- Embeds `to_bool(b)` from util.hpp: `b == JNI_TRUE`. -/
def to_bool (b : Fin 256) : Bool := b == JNI_TRUE

/-- Embeds `to_jbool(b)` from util.hpp: `b ? JNI_TRUE : JNI_FALSE`. -/
def to_jbool (b : Bool) : Fin 256 := if b then JNI_TRUE else JNI_FALSE

/-! ### Helper lemmas -/

/-- A null accessor converts to the null `StringData`. -/
theorem toStringData_of_null {a : JStringAccessor} (ha : a.m_is_null = true) :
    a.toStringData = Except.ok none := by
  unfold JStringAccessor.toStringData
  rw [ha]
  simp

/-- A non-null accessor of size zero converts to the empty (non-null)
`StringData`. -/
theorem toStringData_of_empty {b : JStringAccessor} (hb : b.m_is_null = false)
    (hbs : b.m_size = 0) : b.toStringData = Except.ok (some []) := by
  unfold JStringAccessor.toStringData
  rw [hb, hbs]
  simp [max_string_size]

/-- Wrapping is the identity on values already within the `jlong`
range. -/
theorem int64wrap_eq_self {x : Int} (h1 : jlongMin ≤ x) (h2 : x ≤ jlongMax) :
    int64wrap x = x := by
  have e63 : (2 : Int) ^ 63 = 9223372036854775808 := by norm_num
  have e64 : (2 : Int) ^ 64 = 18446744073709551616 := by norm_num
  unfold jlongMin at h1
  unfold jlongMax at h2
  unfold int64wrap
  rw [Int.emod_eq_of_lt (by omega) (by omega)]
  omega

/-! ### Claim theorems -/

/-- C1 counterexample: on an empty/detached table reference,
`TableIsValid` does not return false (it returns true while recording the
`IllegalState` exception), contradicting the claim that it returns false
there. -/
theorem tableIsValid_cex : ¬ ((TableIsValid none).1 = false) := by decide

/-- C1 (amended): on an empty/detached table reference, `TableIsValid`
logs an error and raises `IllegalState` with the message "Table is no
longer valid to operate on." but still returns true; on an attached,
non-empty reference it returns true without raising or logging. The
boolean result is true in both cases. -/
theorem tableIsValid_amended :
    TableIsValid none =
      (true,
        { exns := [(ExceptionKind.IllegalState, "Table is no longer valid to operate on.")],
          logs := [("Table is no longer attached!", [])] }) ∧
    (∀ t : Table, TableIsValid (some t) = (true, noEff)) ∧
    (∀ t : Option Table, (TableIsValid t).1 = true) := by
  refine ⟨rfl, fun t => rfl, fun t => ?_⟩
  cases t <;> rfl

/-- C6: `to_jlong_or_not_found` maps the engine not-found sentinel
(`realm::not_found` for the `size_t` overload, the null key for the
`ColKey` and `ObjKey` overloads) to -1, maps 0 to 0, and maps every
other valid index or key value to its numeric value unchanged. -/
theorem toJlongOrNotFound_spec :
    to_jlong_or_not_found not_found = -1 ∧
    to_jlong_or_not_found 0 = 0 ∧
    (∀ res : Nat, res < 2 ^ 63 → to_jlong_or_not_found res = (res : Int)) ∧
    to_jlong_or_not_found_col ⟨ColKey.null_value⟩ = -1 ∧
    (∀ k : ColKey, k.value ≠ ColKey.null_value → to_jlong_or_not_found_col k = k.value) ∧
    to_jlong_or_not_found_obj ⟨ObjKey.null_value⟩ = -1 ∧
    (∀ k : ObjKey, k.value ≠ ObjKey.null_value → to_jlong_or_not_found_obj k = k.value) := by
  refine ⟨by decide, by decide, ?_, by decide, ?_, by decide, ?_⟩
  · intro res h
    have e63 : (2 : Nat) ^ 63 = 9223372036854775808 := by norm_num
    have hne : res ≠ not_found := by
      unfold not_found
      have e64 : (2 : Nat) ^ 64 = 18446744073709551616 := by norm_num
      omega
    unfold to_jlong_or_not_found jlong_of_size_t
    rw [if_neg hne, if_pos h]
  · intro k h
    unfold to_jlong_or_not_found_col ColKey.toBool
    rw [if_pos (by simpa using h)]
  · intro k h
    unfold to_jlong_or_not_found_obj ObjKey.toBool
    rw [if_pos (by simpa using h)]

/-- C6 witness: concrete evaluations of the three overloads on valid
values. -/
theorem toJlongOrNotFound_spec_witness :
    to_jlong_or_not_found 7 = 7 ∧
    to_jlong_or_not_found_col ⟨3⟩ = 3 ∧
    to_jlong_or_not_found_obj ⟨4⟩ = 4 :=
  ⟨toJlongOrNotFound_spec.2.2.1 7 (by norm_num),
   toJlongOrNotFound_spec.2.2.2.2.1 ⟨3⟩ (by decide),
   toJlongOrNotFound_spec.2.2.2.2.2.2 ⟨4⟩ (by decide)⟩

/-- C9: `to_bool` returns true exactly when the incoming `jboolean`
equals `JNI_TRUE`; every other byte value, including non-canonical
nonzero ones, maps to false; and `to_bool` inverts `to_jbool` on every
native bool. -/
theorem toBool_spec :
    (∀ b : Fin 256, to_bool b = true ↔ b = JNI_TRUE) ∧
    (∀ b : Fin 256, b ≠ JNI_TRUE → to_bool b = false) ∧
    (∀ b : Bool, to_bool (to_jbool b) = b) := by
  refine ⟨?_, ?_, ?_⟩
  · intro b
    simp [to_bool]
  · intro b h
    simp [to_bool, h]
  · intro b
    cases b <;> decide

/-- C9 witness: the non-canonical nonzero byte 2 maps to false. -/
theorem toBool_spec_witness : to_bool 2 = false :=
  toBool_spec.2.1 2 (by decide)

/-- C8: with the parameter-checking flag disabled, `TYPE_VALID` and
`COL_NULLABLE` always succeed (true, no exception, no log), while
`TABLE_VALID` and `ROW_VALID` are the unconditional validators for
either flag value. -/
theorem checkParameters_gating :
    (∀ (t : Table) (col ty : Int), TYPE_VALID false t col ty = (true, noEff)) ∧
    (∀ (t : Table) (col : Int), COL_NULLABLE false t col = (true, noEff)) ∧
    (∀ (flag : Bool) (t : Option Table), TABLE_VALID flag t = TableIsValid t) ∧
    (∀ (flag : Bool) (st : EngineState) (p : Int), ROW_VALID flag st p = RowIsValid st p) :=
  ⟨fun _ _ _ => rfl, fun _ _ => rfl, fun _ _ => rfl, fun _ _ _ => rfl⟩

/-- C2: the milliseconds round trip `to_milliseconds (from_milliseconds
M)` equals `M` for every non-negative `M` that is an exact multiple of
1000 (and fits a `jlong`); for negative values that are not multiples of
1000, `from_milliseconds` can produce a negative nanosecond component,
the documented boundary case. -/
theorem millis_roundtrip :
    (∀ M : Int, 0 ≤ M → (1000 : Int) ∣ M → M ≤ jlongMax →
      to_milliseconds (from_milliseconds M) = M) ∧
    (from_milliseconds (-1)).m_nanoseconds < 0 ∧
    (from_milliseconds (-1999)).m_nanoseconds < 0 := by
  refine ⟨?_, by decide, by decide⟩
  intro M hM hdvd hle
  obtain ⟨c, rfl⟩ := hdvd
  have htd : ((1000 : Int) * c).tdiv 1000 = c :=
    Int.mul_tdiv_cancel_left c (by norm_num)
  have htm : ((1000 : Int) * c).tmod 1000 = 0 := by
    rw [mul_comm]
    exact Int.mul_tmod_left c 1000
  unfold to_milliseconds from_milliseconds
  rw [htd, htm]
  norm_num
  rw [mul_comm]
  exact int64wrap_eq_self (le_trans (by unfold jlongMin; norm_num) hM) hle

/-- C2 witness: the round trip at the concrete multiple 5000. -/
theorem millis_roundtrip_witness :
    to_milliseconds (from_milliseconds 5000) = 5000 :=
  millis_roundtrip.1 5000 (by norm_num) (by norm_num) (by unfold jlongMax; norm_num)

/-- C3: `ColIsNullable` returns true without raising on a Link column;
raises `IllegalArgument` naming the column and returns false on a
LinkList column or on any list column regardless of element type; and
otherwise returns exactly the value of the nullable flag, raising
`IllegalArgument` naming the column when the flag is unset. -/
theorem colIsNullable_spec (t : Table) (col : Int) :
    (t.get_column_type col = type_Link → ColIsNullable t col = (true, noEff)) ∧
    (t.get_column_type col ≠ type_Link →
      (t.get_column_type col = type_LinkList ∨ t.is_list col = true) →
      ColIsNullable t col =
        (false,
          { exns := [(ExceptionKind.IllegalArgument,
              "RealmList(" ++ t.get_column_name col ++ ") is not nullable.")],
            logs := [] })) ∧
    (t.get_column_type col ≠ type_Link → t.get_column_type col ≠ type_LinkList →
      t.is_list col = false →
      (ColIsNullable t col).1 = t.is_nullable col ∧
      (t.is_nullable col = true → ColIsNullable t col = (true, noEff)) ∧
      (t.is_nullable col = false →
        (ColIsNullable t col).2.exns =
          [(ExceptionKind.IllegalArgument,
            "This field(" ++ t.get_column_name col ++ ") is not nullable.")])) := by
  refine ⟨?_, ?_, ?_⟩
  · intro h
    unfold ColIsNullable
    rw [if_pos h]
  · intro h1 h2
    unfold ColIsNullable
    rw [if_neg h1]
    rcases h2 with h2 | h2
    · rw [if_pos h2]
    · by_cases h3 : t.get_column_type col = type_LinkList
      · rw [if_pos h3]
      · rw [if_neg h3, if_pos h2]
  · intro h1 h2 h3
    unfold ColIsNullable
    rw [if_neg h1, if_neg h2, if_neg (by simp [h3])]
    by_cases h4 : t.is_nullable col = true
    · rw [if_pos h4]
      exact ⟨h4.symm, fun _ => rfl, fun hc => by rw [h4] at hc; cases hc⟩
    · have h4f : t.is_nullable col = false := by
        cases hv : t.is_nullable col
        · rfl
        · exact absurd hv h4
      rw [if_neg h4]
      exact ⟨h4f.symm, fun hc => absurd hc h4, fun _ => rfl⟩

/-- C3 witness: a concrete list column of a non-link element type raises
`IllegalArgument` naming the column. -/
theorem colIsNullable_spec_witness :
    ColIsNullable ⟨fun _ => ⟨0, "ages", true, false⟩⟩ 0 =
      (false,
        { exns := [(ExceptionKind.IllegalArgument, "RealmList(ages) is not nullable.")],
          logs := [] }) :=
  (colIsNullable_spec ⟨fun _ => ⟨0, "ages", true, false⟩⟩ 0).2.1 (by decide) (Or.inr rfl)

/-- C4: on a non-null accessor whose transcoded byte length exceeds the
engine maximum, the conversion to a native `StringData` view raises
`IllegalArgument` (the size check is performed at this conversion, on the
already-constructed accessor), while the conversion to an owned string
succeeds and returns the buffer content with no size constraint. -/
theorem stringAccessor_size_check (a : JStringAccessor)
    (hnull : a.m_is_null = false) (hsz : a.m_size > max_string_size) :
    isIllegalArgumentErr a.toStringData = true ∧
    a.toOwnedString = a.m_data.take a.m_size := by
  constructor
  · unfold JStringAccessor.toStringData
    rw [hnull]
    simp only [Bool.false_eq_true, if_false, if_pos hsz]
    rfl
  · unfold JStringAccessor.toOwnedString
    rw [hnull]
    simp

/-- C4 witness: a concrete accessor one byte over the maximum. -/
theorem stringAccessor_size_check_witness :
    isIllegalArgumentErr (JStringAccessor.toStringData ⟨false, [], 16777201⟩) = true ∧
    JStringAccessor.toOwnedString ⟨false, [], 16777201⟩ = ([] : List Char).take 16777201 :=
  stringAccessor_size_check ⟨false, [], 16777201⟩ rfl (by norm_num [max_string_size])

/-- C5: `RowIsValid` returns true exactly when the pointer is non-null
and the referenced object reports itself valid; otherwise it returns
false, raises `IllegalState` exactly once with the concurrent-deletion
message, logs the pointer value, and leaves the engine state unchanged. -/
theorem rowIsValid_spec (st : EngineState) (p : Int) :
    ((p ≠ 0 ∧ st.isValid p = true) → RowIsValid st p = (true, noEff, st)) ∧
    (¬ (p ≠ 0 ∧ st.isValid p = true) →
      (RowIsValid st p).1 = false ∧
      (RowIsValid st p).2.1.exns =
        [(ExceptionKind.IllegalState,
          "Object is no longer valid to operate on. Was it deleted by another thread?")] ∧
      (RowIsValid st p).2.1.logs = [("Row %1 is no longer attached!", [p])] ∧
      (RowIsValid st p).2.2 = st) := by
  constructor
  · rintro ⟨h1, h2⟩
    have hb : ((p != 0) && st.isValid p) = true := by
      simp [bne_iff_ne, h1, h2]
    simp [RowIsValid, hb]
  · intro h
    have hb : ((p != 0) && st.isValid p) = false := by
      cases hv : st.isValid p
      · simp
      · have h1 : p = 0 := by
          by_contra hc
          exact h ⟨hc, hv⟩
        simp [h1]
    simp [RowIsValid, hb, noEff]

/-- C5 witness: a non-null pointer to an object the engine reports
invalid. -/
theorem rowIsValid_spec_witness :
    (RowIsValid ⟨fun _ => false⟩ 5).1 = false ∧
    (RowIsValid ⟨fun _ => false⟩ 5).2.1.exns =
      [(ExceptionKind.IllegalState,
        "Object is no longer valid to operate on. Was it deleted by another thread?")] ∧
    (RowIsValid ⟨fun _ => false⟩ 5).2.1.logs = [("Row %1 is no longer attached!", [(5 : Int)])] ∧
    (RowIsValid ⟨fun _ => false⟩ 5).2.2 = (⟨fun _ => false⟩ : EngineState) :=
  (rowIsValid_spec ⟨fun _ => false⟩ 5).2 (by simp)

/-- C7: a null host string is distinguished from an empty one: the
native view of a null accessor is the null `StringData` (not the empty
string produced by an empty non-null accessor), while the owned-string
conversion of the null accessor succeeds and yields the empty string. -/
theorem nullString_distinguished (a b : JStringAccessor)
    (ha : a.m_is_null = true) (hb : b.m_is_null = false) (hbs : b.m_size = 0) :
    a.toStringData = Except.ok none ∧
    b.toStringData = Except.ok (some []) ∧
    a.toStringData ≠ b.toStringData ∧
    a.toOwnedString = [] := by
  have h1 : a.toStringData = Except.ok none := toStringData_of_null ha
  have h2 : b.toStringData = Except.ok (some []) := toStringData_of_empty hb hbs
  refine ⟨h1, h2, ?_, ?_⟩
  · rw [h1, h2]
    simp
  · unfold JStringAccessor.toOwnedString
    rw [ha]
    simp

/-- C7 witness: concrete null and empty accessors. -/
theorem nullString_distinguished_witness :
    JStringAccessor.toStringData ⟨true, [], 0⟩ = Except.ok none ∧
    JStringAccessor.toStringData ⟨false, [], 0⟩ = Except.ok (some []) ∧
    JStringAccessor.toStringData ⟨true, [], 0⟩ ≠ JStringAccessor.toStringData ⟨false, [], 0⟩ ∧
    JStringAccessor.toOwnedString ⟨true, [], 0⟩ = [] :=
  nullString_distinguished ⟨true, [], 0⟩ ⟨false, [], 0⟩ rfl rfl rfl

/-- C10: `is_null_or_empty` holds exactly when the accessor is null or
its transcoded byte length is zero; both the null accessor and the
empty non-null accessor satisfy it, even though their native views are
distinct values. -/
theorem isNullOrEmpty_spec :
    (∀ a : JStringAccessor,
      a.is_null_or_empty = true ↔ (a.m_is_null = true ∨ a.m_size = 0)) ∧
    (∀ b c : JStringAccessor, b.m_is_null = true → c.m_is_null = false → c.m_size = 0 →
      b.is_null_or_empty = true ∧ c.is_null_or_empty = true ∧
      b.toStringData ≠ c.toStringData) := by
  constructor
  · intro a
    simp [JStringAccessor.is_null_or_empty]
  · intro b c hb hc hcs
    have hne : b.toStringData ≠ c.toStringData := by
      rw [toStringData_of_null hb, toStringData_of_empty hc hcs]
      simp
    refine ⟨?_, ?_, hne⟩
    · simp [JStringAccessor.is_null_or_empty, hb]
    · simp [JStringAccessor.is_null_or_empty, hcs]

/-- C10 witness: concrete null and empty accessors both satisfy
`is_null_or_empty` while their native views differ. -/
theorem isNullOrEmpty_spec_witness :
    JStringAccessor.is_null_or_empty ⟨true, [], 7⟩ = true ∧
    JStringAccessor.is_null_or_empty ⟨false, ['a'], 0⟩ = true ∧
    JStringAccessor.toStringData ⟨true, [], 7⟩ ≠ JStringAccessor.toStringData ⟨false, ['a'], 0⟩ :=
  isNullOrEmpty_spec.2 ⟨true, [], 7⟩ ⟨false, ['a'], 0⟩ rfl rfl rfl

end RealmUtil
